import Mathlib

/-!
Verification of the AWS IoT device-shadow state-synchronization engine in
`Projects/B-U585I-IOT02A/tz_disabled/Src/mqtt/shadow_device_task.c`.

The engine keeps one scalar property (`powerOn`) synchronized with a
cloud-held shadow document.  We embed:

* the session context `ShadowDeviceCtx_t` (the three integer fields the
  synchronization logic reads and writes);
* the static delta-version counter `ulCurrentVersion` of
  `prvIncomingPublishUpdateDeltaCallback`;
* the three incoming-publish callbacks (delta / accepted / rejected);
* the body of one iteration of the `vShadowDeviceTask` reconcile loop
  (token generation, report encoding, publish, wait, timeout handling);
* the report-document encoder (`snprintf` over
  `shadowexampleSHADOW_REPORTED_JSON`) and models of the external
  collaborators `strtoul` (libc) and `JSON_Search` (core_json), which are
  outside this translation unit.

Machine integers (`uint32_t`) are `Nat` with an explicit `% 2 ^ 32`
where a C conversion occurs; none of the engine's own operations can
overflow (it only assigns and compares).
-/

/-- `(uint32_t)` conversion of a C unsigned value. -/
def toUint32 (n : Nat) : Nat := n % 2 ^ 32

/-- `ULONG_MAX` on the 32-bit target (unsigned long is 32 bits on ARM Cortex-M). -/
def cULONG_MAX : Nat := 2 ^ 32 - 1

/-- Drop the leading C whitespace characters, as `strtoul` does before parsing. -/
def skipSpaces : List Char → List Char
  | [] => []
  | c :: rest =>
    if c = ' ' ∨ c = '\t' ∨ c = '\n' ∨ c = '\r' then skipSpaces rest else c :: rest

/-- Accumulate the leading decimal digits, stopping at the first non-digit.
An input with no leading digit yields the accumulator unchanged (so `0`). -/
def parseDecDigits (acc : Nat) : List Char → Nat
  | [] => acc
  | c :: rest =>
    if c.isDigit then parseDecDigits (acc * 10 + (c.toNat - 48)) rest else acc

/-- Modelled from the spec: libc `strtoul(s, NULL, 10)` on the 32-bit target,
restricted to non-negative inputs (no document in this development carries a
leading minus sign).  It skips whitespace, accepts an optional plus sign,
parses leading decimal digits (none parsed means result `0`), and saturates
at `ULONG_MAX` on overflow. -/
def strtoul10 (cs : List Char) : Nat :=
  let cs1 := skipSpaces cs
  let cs2 := match cs1 with
    | '+' :: rest => rest
    | other => other
  min (parseDecDigits 0 cs2) cULONG_MAX

/-- `( uint32_t ) strtoul( s, NULL, 10 )` as used throughout the callbacks. -/
def strtoul32 (cs : List Char) : Nat := toUint32 (strtoul10 cs)

/-- The fields of `ShadowDeviceCtx_t` that the synchronization logic reads and
writes.  (The topic-string fields and the task handle are transport plumbing
with no influence on the state logic; the task-handle notification is modelled
as the `Bool` "wake" result of the handlers.) -/
structure ShadowDeviceCtx_t where
  /-- `ulCurrentPowerOnState`: the simulated device current power on state. -/
  ulCurrentPowerOnState : Nat
  /-- `ulReportedPowerOnState`: the last reported state. -/
  ulReportedPowerOnState : Nat
  /-- `ulClientToken`: token of the in-flight update; `0` when not waiting. -/
  ulClientToken : Nat
deriving DecidableEq

/-- The whole mutable state of the session: the context plus the `static`
local `ulCurrentVersion` of `prvIncomingPublishUpdateDeltaCallback`. -/
structure SysState where
  ctx : ShadowDeviceCtx_t
  /-- `static uint32_t ulCurrentVersion = 0;` in the delta callback. -/
  ulCurrentVersion : Nat
deriving DecidableEq

/-- `ShadowDeviceCtx_t xShadowCtx = { 0 };` together with the static
initializer `ulCurrentVersion = 0`: every field starts at zero.  Note that
`ulReportedPowerOnState` starts at `0`, not at
`shadowexampleINVALID_POWERON_STATE`. -/
def initSysState : SysState :=
  { ctx := { ulCurrentPowerOnState := 0, ulReportedPowerOnState := 0, ulClientToken := 0 }
    ulCurrentVersion := 0 }

/-- `#define shadowexampleINVALID_POWERON_STATE ( 2 )` -/
def shadowexampleINVALID_POWERON_STATE : Nat := 2

/-- The comment on `shadowexampleINVALID_POWERON_STATE`: "we only set the
powerOn state to 0 or 1" — the valid property values. -/
def isValidPowerOnState (n : Nat) : Bool := n == 0 || n == 1

/-- `xShadowCtx.ulClientToken = ( xTaskGetTickCount() % 1000000 );` -/
def genClientToken (tickCount : Nat) : Nat := tickCount % 1000000

/-- The fields of an `/update/delta` payload that the delta callback reads,
each as the raw text `JSON_Search` returns (`none` when the search fails).
`validJson` is the verdict of the `JSON_Validate` collaborator. -/
structure DeltaDoc where
  validJson : Bool
  version : Option String
  statePowerOn : Option String
deriving DecidableEq

/-- The fields of an `/update/accepted` payload that the accepted callback
reads, as raw `JSON_Search` results. -/
structure AcceptedDoc where
  validJson : Bool
  clientToken : Option String
  stateReportedPowerOn : Option String
deriving DecidableEq

/-- The fields of an `/update/rejected` payload that the rejected callback
reads, as raw `JSON_Search` results. -/
structure RejectedDoc where
  validJson : Bool
  clientToken : Option String
  code : Option String
deriving DecidableEq

/-- `prvIncomingPublishUpdateDeltaCallback`: validate, extract `version`,
discard if `ulVersion <= ulCurrentVersion`, else advance `ulCurrentVersion`,
then extract `state.powerOn` and, when present, assign
`ulCurrentPowerOnState`.  When absent only a warning is logged — the version
stays advanced. -/
def prvIncomingPublishUpdateDeltaCallback (s : SysState) (d : DeltaDoc) : SysState :=
  if d.validJson = false then s
  else
    match d.version with
    | none => s
    | some versionText =>
      let ulVersion := strtoul32 versionText.data
      if ulVersion ≤ s.ulCurrentVersion then s
      else
        let s1 : SysState := { s with ulCurrentVersion := ulVersion }
        match d.statePowerOn with
        | none => s1
        | some stateText =>
          { s1 with ctx := { s1.ctx with ulCurrentPowerOnState := strtoul32 stateText.data } }

/-- `prvIncomingPublishUpdateAcceptedCallback`: validate, extract
`clientToken`, discard on mismatch with `ulClientToken`; on match extract
`state.reported.powerOn` (when present, assign `ulReportedPowerOnState`)
and notify the shadow task (`xTaskNotifyGive`, the `Bool` result). -/
def prvIncomingPublishUpdateAcceptedCallback (ctx : ShadowDeviceCtx_t) (d : AcceptedDoc) :
    ShadowDeviceCtx_t × Bool :=
  if d.validJson = false then (ctx, false)
  else
    match d.clientToken with
    | none => (ctx, false)
    | some tokenText =>
      let ulReceivedToken := strtoul32 tokenText.data
      if ulReceivedToken ≠ ctx.ulClientToken then (ctx, false)
      else
        match d.stateReportedPowerOn with
        | none => (ctx, true)
        | some stateText =>
          ({ ctx with ulReportedPowerOnState := strtoul32 stateText.data }, true)

/-- `prvIncomingPublishUpdateRejectedCallback`: validate, extract
`clientToken`, discard on mismatch; on match the `code` field is only
logged (present or absent), no context field is written, and the shadow
task is notified. -/
def prvIncomingPublishUpdateRejectedCallback (ctx : ShadowDeviceCtx_t) (d : RejectedDoc) :
    ShadowDeviceCtx_t × Bool :=
  if d.validJson = false then (ctx, false)
  else
    match d.clientToken with
    | none => (ctx, false)
    | some tokenText =>
      if strtoul32 tokenText.data ≠ ctx.ulClientToken then (ctx, false)
      else (ctx, true)

/-- Decimal rendering of an unsigned value, as `printf`'s `%u` produces it
(most significant digit first, a single `0` for zero).  Fuel-based structural
recursion: `fuel = n + 1` always suffices since the argument is divided by
ten at each step. -/
def natToCharsAux : Nat → Nat → List Char
  | 0, _ => []
  | fuel + 1, n =>
    if n < 10 then [Char.ofNat (48 + n)]
    else natToCharsAux fuel (n / 10) ++ [Char.ofNat (48 + n % 10)]

/-- Decimal digit string of `n`, most significant first. -/
def natToChars (n : Nat) : List Char := natToCharsAux (n + 1) n

/-- `%1u`: minimum field width 1, so just the decimal rendering. -/
def fmtU1 (n : Nat) : List Char := natToChars n

/-- `%06lu`: decimal rendering zero-padded on the left to at least six
characters. -/
def fmtLU06 (n : Nat) : List Char :=
  List.replicate (6 - (natToChars n).length) '0' ++ natToChars n

/-- `#define shadowexampleSHADOW_REPORTED_JSON` — the report format string
(braces written with hex escapes). -/
def shadowexampleSHADOW_REPORTED_JSON : String :=
  "\x7b\"state\":\x7b\"reported\":\x7b\"powerOn\":%1u\x7d\x7d,\"clientToken\":\"%06lu\"\x7d"

/-- `#define shadowexampleSHADOW_REPORTED_JSON_LENGTH
( sizeof( shadowexampleSHADOW_REPORTED_JSON ) - 2 )`; `sizeof` of a string
literal counts the terminating NUL, hence `length + 1`. -/
def shadowexampleSHADOW_REPORTED_JSON_LENGTH : Nat :=
  (shadowexampleSHADOW_REPORTED_JSON.length + 1) - 2

/-- The format string split at its two conversion specifiers: the text
before `%1u`. -/
def reportSegA : List Char :=
  String.data "\x7b\"state\":\x7b\"reported\":\x7b\"powerOn\":"

/-- The format-string text between `%1u` and `%06lu`. -/
def reportSegB : List Char :=
  String.data "\x7d\x7d,\"clientToken\":\""

/-- The format-string text after `%06lu`. -/
def reportSegC : List Char :=
  String.data "\"\x7d"

/-- The untruncated output of
`sprintf( shadowexampleSHADOW_REPORTED_JSON, state, token )`. -/
def sprintfShadowReported (state token : Nat) : List Char :=
  reportSegA ++ fmtU1 state ++ reportSegB ++ fmtLU06 token ++ reportSegC

/-- `snprintf` into a buffer of `size` bytes writes at most `size - 1`
characters (plus the NUL terminator). -/
def snprintfChars (size : Nat) (out : List Char) : List Char :=
  out.take (size - 1)

/-- The report document the task actually publishes: `snprintf` of the
format into `pcUpdateDocument`, a buffer of
`shadowexampleSHADOW_REPORTED_JSON_LENGTH + 1` bytes. -/
def pcUpdateDocument (state token : Nat) : String :=
  String.mk (snprintfChars (shadowexampleSHADOW_REPORTED_JSON_LENGTH + 1)
    (sprintfShadowReported state token))

/-- `true` when `pat` is an initial segment of `cs`. -/
def startsWithChars : List Char → List Char → Bool
  | [], _ => true
  | _ :: _, [] => false
  | p :: ps, c :: cs => p = c && startsWithChars ps cs

/-- The suffix of `cs` following the first occurrence of `pat`, when there
is one. -/
def dropAfterMatch (pat : List Char) : List Char → Option (List Char)
  | [] => if pat.isEmpty then some [] else none
  | c :: rest =>
    if startsWithChars pat (c :: rest) then some ((c :: rest).drop pat.length)
    else dropAfterMatch pat rest

/-- The characters of a JSON string value up to its closing quote. -/
def takeUntilQuote : List Char → List Char
  | [] => []
  | c :: rest => if c = Char.ofNat 34 then [] else c :: takeUntilQuote rest

/-- The raw value text at a position inside a document: a quoted string
yields its contents, otherwise the leading run of decimal digits (the only
unquoted values these documents carry are unsigned numbers). -/
def jsonValueAt (cs : List Char) : List Char :=
  match cs with
  | [] => []
  | c :: rest =>
    if c = Char.ofNat 34 then takeUntilQuote rest
    else (c :: rest).takeWhile (fun ch => ch.isDigit)

/-- The pattern `"key":` that precedes the value of `key`. -/
def jsonKeyPat (key : List Char) : List Char :=
  Char.ofNat 34 :: key ++ (Char.ofNat 34 :: [':'])

/-- Search for a dotted path component by component: each component is
located by its `"key":` pattern and the search continues in the text that
follows it. -/
def jsonSearchPath : List Char → List (List Char) → Option (List Char)
  | _, [] => none
  | cs, [key] => (dropAfterMatch (jsonKeyPat key) cs).map jsonValueAt
  | cs, key :: key2 :: keys =>
    match dropAfterMatch (jsonKeyPat key) cs with
    | none => none
    | some rest => jsonSearchPath rest (key2 :: keys)

/-- Split a dotted query at its `'.'` separators. -/
def splitOnDots : List Char → List (List Char)
  | [] => [[]]
  | c :: rest =>
    if c = '.' then [] :: splitOnDots rest
    else
      match splitOnDots rest with
      | [] => [[c]]
      | grp :: grps => (c :: grp) :: grps

/-- Modelled from the spec: the core_json collaborator's
`JSON_Search( doc, query )` — "three independent lookups by dotted path",
each independently optional — for the flat, fixed-shape documents this
engine produces and consumes.  The query is split at the dots and resolved
path component by path component; the result is the raw value text. -/
def JSON_SearchModel (doc : String) (query : String) : Option String :=
  (jsonSearchPath doc.data (splitOnDots query.data)).map String.mk

/-- An asynchronous incoming publish on one of the three subscribed shadow
topics. -/
inductive ShadowMsg where
  | delta (d : DeltaDoc)
  | accepted (d : AcceptedDoc)
  | rejected (d : RejectedDoc)
deriving DecidableEq

/-- Dispatch one incoming publish to its callback; the `Bool` reports
whether the callback called `xTaskNotifyGive` on the shadow task. -/
def deliverMsg (s : SysState) (m : ShadowMsg) : SysState × Bool :=
  match m with
  | .delta d => (prvIncomingPublishUpdateDeltaCallback s d, false)
  | .accepted d =>
    let r := prvIncomingPublishUpdateAcceptedCallback s.ctx d
    ({ s with ctx := r.1 }, r.2)
  | .rejected d =>
    let r := prvIncomingPublishUpdateRejectedCallback s.ctx d
    ({ s with ctx := r.1 }, r.2)

/-- Dispatch a list of incoming publishes in order; the `Bool` is whether
any of them notified the task (so that `ulTaskNotifyTake` returns
non-zero). -/
def deliverAll (s : SysState) (ms : List ShadowMsg) : SysState × Bool :=
  match ms with
  | [] => (s, false)
  | m :: rest =>
    let r1 := deliverMsg s m
    let r2 := deliverAll r1.1 rest
    (r2.1, r1.2 || r2.2)

/-- One iteration of the `vShadowDeviceTask` reconcile loop.  Inputs beyond
the state: the tick count read by `xTaskGetTickCount`, whether
`MQTTAgent_Publish` succeeded, and the incoming publishes delivered during
the `ulTaskNotifyTake` wait window.  The second component is the document
handed to `MQTTAgent_Publish` (`none` when no publish was attempted).

Control flow of the source: if current equals reported, do nothing; else
generate the token, `snprintf` the report, publish; on publish failure just
log; on success wait — if no notification arrived (timeout), set
`ulReportedPowerOnState = shadowexampleINVALID_POWERON_STATE`; finally
clear `ulClientToken` unconditionally. -/
def shadowTaskCycle (s : SysState) (tickCount : Nat) (publishOk : Bool)
    (inWait : List ShadowMsg) : SysState × Option String :=
  if s.ctx.ulCurrentPowerOnState = s.ctx.ulReportedPowerOnState then (s, none)
  else
    let token := genClientToken tickCount
    let s1 : SysState := { s with ctx := { s.ctx with ulClientToken := token } }
    let doc := pcUpdateDocument s1.ctx.ulCurrentPowerOnState token
    if publishOk = false then
      ({ s1 with ctx := { s1.ctx with ulClientToken := 0 } }, some doc)
    else
      let r := deliverAll s1 inWait
      let s2 := r.1
      let s3 : SysState :=
        if r.2 then s2
        else { s2 with ctx :=
          { s2.ctx with ulReportedPowerOnState := shadowexampleINVALID_POWERON_STATE } }
      ({ s3 with ctx := { s3.ctx with ulClientToken := 0 } }, some doc)

/-- A step of the whole session: either an incoming publish delivered while
the task is not waiting, or one reconcile-loop iteration. -/
inductive SysEvent where
  | msg (m : ShadowMsg)
  | cycle (tickCount : Nat) (publishOk : Bool) (inWait : List ShadowMsg)

/-- Apply one event; the second component is the document published during
the event, if any. -/
def sysStep (s : SysState) (e : SysEvent) : SysState × Option String :=
  match e with
  | .msg m => ((deliverMsg s m).1, none)
  | .cycle tickCount publishOk inWait => shadowTaskCycle s tickCount publishOk inWait

/-- Run a list of events from a state. -/
def sysRun (s : SysState) (es : List SysEvent) : SysState :=
  match es with
  | [] => s
  | e :: rest => sysRun (sysStep s e).1 rest

/-- Feed a list of delta documents to the delta callback, recording the
version of each delta that passed the version gate (observable as a change
of `ulCurrentVersion`), in arrival order. -/
def appliedDeltaVersions (s : SysState) (ds : List DeltaDoc) : SysState × List Nat :=
  match ds with
  | [] => (s, [])
  | d :: rest =>
    let s1 := prvIncomingPublishUpdateDeltaCallback s d
    let r := appliedDeltaVersions s1 rest
    if s1.ulCurrentVersion ≠ s.ulCurrentVersion then (r.1, s1.ulCurrentVersion :: r.2)
    else (r.1, r.2)

/-! ## General lemmas about the embedded definitions -/

/-- The three format segments, rejoined around the two conversion
specifiers, give back exactly the source format string (a consistency check
of the encoder against `shadowexampleSHADOW_REPORTED_JSON`). -/
theorem report_segments_rejoin_format :
    reportSegA ++ String.data "%1u" ++ reportSegB ++ String.data "%06lu" ++ reportSegC
      = shadowexampleSHADOW_REPORTED_JSON.data := by decide

/-- Decimal rendering of `n < 10 ^ k` takes at most `k` characters
(for positive `k` and enough fuel). -/
theorem natToCharsAux_length_le (fuel : Nat) : ∀ n k : Nat, n < fuel → 0 < k →
    n < 10 ^ k → (natToCharsAux fuel n).length ≤ k := by
  induction fuel with
  | zero => intro n k hn _ _; omega
  | succ fuel ih =>
    intro n k hn hk hpow
    rw [natToCharsAux]
    by_cases h10 : n < 10
    · simp [h10]; omega
    · simp only [h10, if_false]
      rcases k with _ | k
      · omega
      rcases Nat.eq_zero_or_pos k with hk0 | hkpos
      · subst hk0; simp [pow_succ, pow_zero] at hpow; omega
      have hdiv : n / 10 < 10 ^ k := by
        rw [Nat.div_lt_iff_lt_mul (by omega : 0 < 10)]
        calc n < 10 ^ (k + 1) := hpow
          _ = 10 ^ k * 10 := by rw [pow_succ]
      have hfuel : n / 10 < fuel := by
        have : n / 10 < n := Nat.div_lt_self (by omega) (by omega)
        omega
      have := ih (n / 10) k hfuel hkpos hdiv
      simp only [List.length_append, List.length_cons, List.length_nil]
      omega

/-- Decimal rendering of `n < 10 ^ k` takes at most `k` characters. -/
theorem natToChars_length_le (n k : Nat) (hk : 0 < k) (h : n < 10 ^ k) :
    (natToChars n).length ≤ k :=
  natToCharsAux_length_le (n + 1) n k (Nat.lt_succ_self n) hk h

/-- A single-digit value renders as one character. -/
theorem natToChars_length_single (n : Nat) (h : n ≤ 9) : (natToChars n).length = 1 := by
  rw [natToChars, natToCharsAux]
  simp [show n < 10 by omega]

/-- `%06lu` output of a value below `10 ^ 6` is exactly six characters. -/
theorem fmtLU06_length (n : Nat) (h : n < 1000000) : (fmtLU06 n).length = 6 := by
  have hle : (natToChars n).length ≤ 6 :=
    natToChars_length_le n 6 (by omega) (by norm_num; omega)
  simp only [fmtLU06, List.length_append, List.length_replicate]
  omega

/-- A delta whose parsed version is not strictly greater than
`ulCurrentVersion` is discarded without any state change, whatever its
value field holds. -/
theorem delta_discard_of_le (s : SysState) (vs : String) (pv : Option String)
    (h : strtoul32 vs.data ≤ s.ulCurrentVersion) :
    prvIncomingPublishUpdateDeltaCallback s
      { validJson := true, version := some vs, statePowerOn := pv } = s := by
  simp [prvIncomingPublishUpdateDeltaCallback, h]

/-! ## Claim theorems -/

/-- C1: the claim says `ulReportedPowerOnState` is initialized to a sentinel
distinct from every valid property value, so that the first reconcile cycle
always publishes a report.  The code instead zero-initializes the context
(`ShadowDeviceCtx_t xShadowCtx = { 0 };`): the initial last-reported state
is `0`, a valid property value, it is not the invalid sentinel, it equals
the initial current state, and consequently the first cycle publishes
nothing — contradicting the struct's own comment ("It is initialized to an
invalid value so that an update is initially sent"). -/
theorem C1_zero_init_defeats_first_report :
    initSysState.ctx.ulReportedPowerOnState = 0 ∧
    isValidPowerOnState initSysState.ctx.ulReportedPowerOnState = true ∧
    initSysState.ctx.ulReportedPowerOnState ≠ shadowexampleINVALID_POWERON_STATE ∧
    initSysState.ctx.ulCurrentPowerOnState = initSysState.ctx.ulReportedPowerOnState ∧
    (sysStep initSysState (SysEvent.cycle 7 true [])).2 = none := by
  decide

/-- C2: the delta-version gate is monotonic — `ulCurrentVersion` never
decreases under any delta notification; a delta whose (well-formed) version
is ≤ the current value leaves the whole state unchanged; and feeding the
versions `[5, 3, 7, 7, 9]` (with values `50, 30, 70, 71, 90`) from the
initial state applies exactly versions `5, 7, 9` in that order and leaves
`ulCurrentPowerOnState` holding `90`, the value carried by the version-9
delta. -/
theorem C2_delta_version_gate :
    (∀ (s : SysState) (d : DeltaDoc),
      s.ulCurrentVersion ≤ (prvIncomingPublishUpdateDeltaCallback s d).ulCurrentVersion) ∧
    (∀ (s : SysState) (vs : String) (pv : Option String),
      strtoul32 vs.data ≤ s.ulCurrentVersion →
      prvIncomingPublishUpdateDeltaCallback s
        { validJson := true, version := some vs, statePowerOn := pv } = s) ∧
    ((appliedDeltaVersions initSysState
      [ { validJson := true, version := some "5", statePowerOn := some "50" },
        { validJson := true, version := some "3", statePowerOn := some "30" },
        { validJson := true, version := some "7", statePowerOn := some "70" },
        { validJson := true, version := some "7", statePowerOn := some "71" },
        { validJson := true, version := some "9", statePowerOn := some "90" } ]).2
        = [5, 7, 9] ∧
     (appliedDeltaVersions initSysState
      [ { validJson := true, version := some "5", statePowerOn := some "50" },
        { validJson := true, version := some "3", statePowerOn := some "30" },
        { validJson := true, version := some "7", statePowerOn := some "70" },
        { validJson := true, version := some "7", statePowerOn := some "71" },
        { validJson := true, version := some "9", statePowerOn := some "90" } ]).1.ctx.ulCurrentPowerOnState
        = strtoul32 ("90").data) := by
  refine ⟨?_, ?_, by decide, by decide⟩
  · intro s d
    obtain ⟨valid, ver, pw⟩ := d
    cases valid with
    | false => simp [prvIncomingPublishUpdateDeltaCallback]
    | true =>
      cases ver with
      | none => simp [prvIncomingPublishUpdateDeltaCallback]
      | some vs =>
        by_cases hle : strtoul32 vs.data ≤ s.ulCurrentVersion
        · simp [prvIncomingPublishUpdateDeltaCallback, hle]
        · cases pw with
          | none => simp [prvIncomingPublishUpdateDeltaCallback, hle]; omega
          | some ps => simp [prvIncomingPublishUpdateDeltaCallback, hle]; omega
  · intro s vs pv hle
    exact delta_discard_of_le s vs pv hle

/-- C2 witness: a delta with version 3 against current version 5 is
discarded unchanged (hypothesis of the gate lemma discharged at a concrete
input), and the version never decreases at a concrete input. -/
theorem C2_delta_version_gate_witness :
    prvIncomingPublishUpdateDeltaCallback ⟨⟨0, 0, 0⟩, 5⟩
      { validJson := true, version := some "3", statePowerOn := some "30" } = ⟨⟨0, 0, 0⟩, 5⟩ ∧
    (⟨⟨0, 0, 0⟩, 5⟩ : SysState).ulCurrentVersion ≤
      (prvIncomingPublishUpdateDeltaCallback ⟨⟨0, 0, 0⟩, 5⟩
        { validJson := true, version := some "9", statePowerOn := some "90" }).ulCurrentVersion :=
  ⟨C2_delta_version_gate.2.1 ⟨⟨0, 0, 0⟩, 5⟩ "3" (some "30") (by decide),
   C2_delta_version_gate.1 ⟨⟨0, 0, 0⟩, 5⟩ _⟩

/-- C3: token correlation in the accepted handler.  With `ulClientToken =
42`, an accepted response carrying `clientToken` text `"42"` sets
`ulReportedPowerOnState` to the parsed `state.reported.powerOn` value of the
response and notifies (wakes) the shadow task, while one carrying `"7"`
leaves the context unchanged and does not notify. -/
theorem C3_token_correlation (ctx : ShadowDeviceCtx_t) (h : ctx.ulClientToken = 42)
    (vs : String) :
    prvIncomingPublishUpdateAcceptedCallback ctx
      { validJson := true, clientToken := some "42", stateReportedPowerOn := some vs }
      = ({ ctx with ulReportedPowerOnState := strtoul32 vs.data }, true) ∧
    prvIncomingPublishUpdateAcceptedCallback ctx
      { validJson := true, clientToken := some "7", stateReportedPowerOn := some vs }
      = (ctx, false) := by
  have h42 : strtoul32 (String.data "42") = 42 := by decide
  have h7 : strtoul32 (String.data "7") = 7 := by decide
  constructor
  · simp [prvIncomingPublishUpdateAcceptedCallback, h42, h]
  · simp [prvIncomingPublishUpdateAcceptedCallback, h7, h]

/-- C3 witness: concrete accepted responses against `ulClientToken = 42`
with reported value text `"1"`. -/
theorem C3_token_correlation_witness :
    prvIncomingPublishUpdateAcceptedCallback ⟨0, 9, 42⟩
      { validJson := true, clientToken := some "42", stateReportedPowerOn := some "1" }
      = (⟨0, 1, 42⟩, true) ∧
    prvIncomingPublishUpdateAcceptedCallback ⟨0, 9, 42⟩
      { validJson := true, clientToken := some "7", stateReportedPowerOn := some "1" }
      = (⟨0, 9, 42⟩, false) := by
  have h := C3_token_correlation ⟨0, 9, 42⟩ rfl "1"
  exact ⟨by rw [h.1]; decide, h.2⟩

/-- C6: a rejected response whose `clientToken` parses to the pending token
leaves the whole session state (current state, reported state, token, and
the delta version counter) unchanged for every `code` field value, present
or absent, and still notifies (wakes) the shadow task. -/
theorem C6_rejected_frame (s : SysState) (ts : String) (code : Option String)
    (h : strtoul32 ts.data = s.ctx.ulClientToken) :
    deliverMsg s (ShadowMsg.rejected
      { validJson := true, clientToken := some ts, code := code }) = (s, true) := by
  simp [deliverMsg, prvIncomingPublishUpdateRejectedCallback, h]

/-- C6 witness: a concrete matched rejected response with `code` present,
and context intact. -/
theorem C6_rejected_frame_witness :
    deliverMsg ⟨⟨1, 0, 42⟩, 3⟩ (ShadowMsg.rejected
      { validJson := true, clientToken := some "42", code := some "404" })
      = (⟨⟨1, 0, 42⟩, 3⟩, true) :=
  C6_rejected_frame ⟨⟨1, 0, 42⟩, 3⟩ "42" (some "404") (by decide)

/-- C7: a well-formed delta whose version parses strictly above
`ulCurrentVersion` but which lacks the `state.powerOn` field still advances
`ulCurrentVersion` to that version while leaving the context (in particular
`ulCurrentPowerOnState`) unchanged; a later delta whose version parses to
the same value — with any value field — is then discarded. -/
theorem C7_partial_delta_advances_version (s : SysState) (vs : String)
    (h : s.ulCurrentVersion < strtoul32 vs.data) :
    (prvIncomingPublishUpdateDeltaCallback s
        { validJson := true, version := some vs, statePowerOn := none }).ulCurrentVersion
      = strtoul32 vs.data ∧
    (prvIncomingPublishUpdateDeltaCallback s
        { validJson := true, version := some vs, statePowerOn := none }).ctx = s.ctx ∧
    (∀ (vs2 : String) (pv : Option String), strtoul32 vs2.data = strtoul32 vs.data →
      prvIncomingPublishUpdateDeltaCallback
        (prvIncomingPublishUpdateDeltaCallback s
          { validJson := true, version := some vs, statePowerOn := none })
        { validJson := true, version := some vs2, statePowerOn := pv }
        = prvIncomingPublishUpdateDeltaCallback s
            { validJson := true, version := some vs, statePowerOn := none }) := by
  have hnle : ¬ strtoul32 vs.data ≤ s.ulCurrentVersion := by omega
  refine ⟨?_, ?_, ?_⟩
  · simp [prvIncomingPublishUpdateDeltaCallback, hnle]
  · simp [prvIncomingPublishUpdateDeltaCallback, hnle]
  · intro vs2 pv heq
    have h1 : (prvIncomingPublishUpdateDeltaCallback s
        { validJson := true, version := some vs, statePowerOn := none }).ulCurrentVersion
        = strtoul32 vs.data := by
      simp [prvIncomingPublishUpdateDeltaCallback, hnle]
    exact delta_discard_of_le _ vs2 pv (by rw [heq, h1])

/-- C7 witness: version text `"4"` against current version `0`, then a
second delta with version text `"04"` (same parsed version `4`) carrying a
value, which is discarded. -/
theorem C7_partial_delta_advances_version_witness :
    (prvIncomingPublishUpdateDeltaCallback initSysState
        { validJson := true, version := some "4", statePowerOn := none }).ulCurrentVersion = 4 ∧
    (prvIncomingPublishUpdateDeltaCallback initSysState
        { validJson := true, version := some "4", statePowerOn := none }).ctx = initSysState.ctx ∧
    prvIncomingPublishUpdateDeltaCallback
        (prvIncomingPublishUpdateDeltaCallback initSysState
          { validJson := true, version := some "4", statePowerOn := none })
        { validJson := true, version := some "04", statePowerOn := some "1" }
        = prvIncomingPublishUpdateDeltaCallback initSysState
            { validJson := true, version := some "4", statePowerOn := none } := by
  have h := C7_partial_delta_advances_version initSysState "4" (by decide)
  exact ⟨h.1.trans (by decide), h.2.1, h.2.2 "04" (some "1") (by decide)⟩

/-- C10: with no report in flight (`ulClientToken` holding the sentinel
`0`), a well-formed accepted response whose `clientToken` text parses to
`0` — for example any non-numeric token string — passes the correlation
gate: it overwrites `ulReportedPowerOnState` with the response's reported
value and notifies (wakes) the shadow task although nothing is awaited. -/
theorem C10_sentinel_token_passes_gate (ctx : ShadowDeviceCtx_t) (ts vs : String)
    (h0 : ctx.ulClientToken = 0) (ht : strtoul32 ts.data = 0) :
    prvIncomingPublishUpdateAcceptedCallback ctx
      { validJson := true, clientToken := some ts, stateReportedPowerOn := some vs }
      = ({ ctx with ulReportedPowerOnState := strtoul32 vs.data }, true) := by
  simp [prvIncomingPublishUpdateAcceptedCallback, ht, h0]

/-- C10 witness: idle context, non-numeric token text `"null"` (which
`strtoul` parses to `0`), reported value text `"7"`: the stale response
overwrites the reported state and wakes the task. -/
theorem C10_sentinel_token_passes_gate_witness :
    prvIncomingPublishUpdateAcceptedCallback ⟨1, 0, 0⟩
      { validJson := true, clientToken := some "null", stateReportedPowerOn := some "7" }
      = (⟨1, 7, 0⟩, true) := by
  have h := C10_sentinel_token_passes_gate ⟨1, 0, 0⟩ "null" "7" rfl (by decide)
  rw [h]; decide

/-- C4 counterexample: the timeout value is NOT unequal to every value the
current state can hold.  Reachable run: a delta (version `1`) sets
`ulCurrentPowerOnState` to `2`; the next cycle publishes and times out,
which sets `ulReportedPowerOnState` to `shadowexampleINVALID_POWERON_STATE
= 2` — now equal to the current state — so the following cycle does not
re-publish, against the claim. -/
theorem C4_timeout_sentinel_counterexample :
    (sysRun initSysState
      [ SysEvent.msg (ShadowMsg.delta
          { validJson := true, version := some "1", statePowerOn := some "2" }),
        SysEvent.cycle 5 true [] ]).ctx.ulReportedPowerOnState
      = (sysRun initSysState
      [ SysEvent.msg (ShadowMsg.delta
          { validJson := true, version := some "1", statePowerOn := some "2" }),
        SysEvent.cycle 5 true [] ]).ctx.ulCurrentPowerOnState ∧
    (sysRun initSysState
      [ SysEvent.msg (ShadowMsg.delta
          { validJson := true, version := some "1", statePowerOn := some "2" }),
        SysEvent.cycle 5 true [] ]).ctx.ulReportedPowerOnState
      = shadowexampleINVALID_POWERON_STATE ∧
    (sysStep (sysRun initSysState
      [ SysEvent.msg (ShadowMsg.delta
          { validJson := true, version := some "1", statePowerOn := some "2" }),
        SysEvent.cycle 5 true [] ]) (SysEvent.cycle 6 true [])).2 = none := by
  decide

/-- C4 amended: after a cycle that publishes successfully and receives no
notification within the wait window (a timeout), `ulReportedPowerOnState`
is set to `shadowexampleINVALID_POWERON_STATE = 2`, which is unequal to
both valid property values; hence whenever the current state holds a valid
value (`0` or `1`), the next cycle attempts a re-publish even though the
current state is unchanged. -/
theorem C4_timeout_forces_resend_for_valid_states (s : SysState)
    (tickCount tick2 : Nat) (pub2 : Bool) (ms2 : List ShadowMsg)
    (hneq : s.ctx.ulCurrentPowerOnState ≠ s.ctx.ulReportedPowerOnState)
    (hvalid : isValidPowerOnState s.ctx.ulCurrentPowerOnState = true) :
    (shadowTaskCycle s tickCount true []).1.ctx.ulReportedPowerOnState
      = shadowexampleINVALID_POWERON_STATE ∧
    isValidPowerOnState shadowexampleINVALID_POWERON_STATE = false ∧
    ((sysStep (shadowTaskCycle s tickCount true []).1
      (SysEvent.cycle tick2 pub2 ms2)).2).isSome = true := by
  have hval01 : s.ctx.ulCurrentPowerOnState = 0 ∨ s.ctx.ulCurrentPowerOnState = 1 := by
    simpa [isValidPowerOnState] using hvalid
  have hstep : (shadowTaskCycle s tickCount true []).1
      = { s with ctx := { s.ctx with
            ulReportedPowerOnState := shadowexampleINVALID_POWERON_STATE,
            ulClientToken := 0 } } := by
    simp [shadowTaskCycle, hneq, deliverAll]
  have hne2 : s.ctx.ulCurrentPowerOnState ≠ shadowexampleINVALID_POWERON_STATE := by
    rcases hval01 with h | h <;> simp [h, shadowexampleINVALID_POWERON_STATE]
  refine ⟨by rw [hstep], by decide, ?_⟩
  rw [hstep]
  simp only [sysStep, shadowTaskCycle]
  rw [if_neg (by simpa using hne2)]
  cases pub2 <;> simp

/-- C4 witness: a concrete timed-out cycle from current state `1`, reported
state `0`: the reported state becomes `2` and the following cycle
publishes. -/
theorem C4_timeout_forces_resend_witness :
    (shadowTaskCycle ⟨⟨1, 0, 0⟩, 0⟩ 3 true []).1.ctx.ulReportedPowerOnState
      = shadowexampleINVALID_POWERON_STATE ∧
    isValidPowerOnState shadowexampleINVALID_POWERON_STATE = false ∧
    ((sysStep (shadowTaskCycle ⟨⟨1, 0, 0⟩, 0⟩ 3 true []).1
      (SysEvent.cycle 4 true [])).2).isSome = true :=
  C4_timeout_forces_resend_for_valid_states ⟨⟨1, 0, 0⟩, 0⟩ 3 4 true []
    (by decide) (by decide)

/-- C5: codec round trip.  Encoding a report for current state `1` and
token `21909` and then decoding the `clientToken` field (as an integer,
via the modelled `strtoul`) and the `state.reported.powerOn` field from
that same encoded document recovers exactly `21909` and `1`. -/
theorem C5_codec_roundtrip :
    (JSON_SearchModel (pcUpdateDocument 1 21909) ("clientToken")).map
        (fun s => strtoul32 s.data) = some 21909 ∧
    (JSON_SearchModel (pcUpdateDocument 1 21909) ("state.reported.powerOn")).map
        (fun s => strtoul32 s.data) = some 1 := by
  decide

/-- C8 counterexample: the statically sized buffer is NOT large enough for
every reachable current-state value.  A delta can set
`ulCurrentPowerOnState` to `10`; the report for state `10` needs 60
characters while the buffer holds
`shadowexampleSHADOW_REPORTED_JSON_LENGTH = 59`, so `snprintf` silently
truncates — and the cycle run from that reachable state publishes exactly
the truncated document. -/
theorem C8_buffer_truncation_counterexample :
    (sysRun initSysState
      [ SysEvent.msg (ShadowMsg.delta
          { validJson := true, version := some "1", statePowerOn := some "10" })
      ]).ctx.ulCurrentPowerOnState = 10 ∧
    (sprintfShadowReported 10 (genClientToken 0)).length
      > shadowexampleSHADOW_REPORTED_JSON_LENGTH ∧
    pcUpdateDocument 10 (genClientToken 0)
      ≠ String.mk (sprintfShadowReported 10 (genClientToken 0)) ∧
    (sysStep (sysRun initSysState
      [ SysEvent.msg (ShadowMsg.delta
          { validJson := true, version := some "1", statePowerOn := some "10" })
      ]) (SysEvent.cycle 0 true [])).2 = some (pcUpdateDocument 10 0) := by
  decide

/-- C8 amended: the statically computed buffer size is exact — the encoded
document fills the buffer completely and `snprintf` loses nothing — for
every single-digit state value (in particular the valid values `0` and `1`)
and every token the generator can produce (`tickCount % 1000000`, always at
most six digits, zero-padded to exactly six). -/
theorem C8_buffer_exact_for_single_digit_states (st tickCount : Nat) (hs : st ≤ 9) :
    (sprintfShadowReported st (genClientToken tickCount)).length
      = shadowexampleSHADOW_REPORTED_JSON_LENGTH ∧
    pcUpdateDocument st (genClientToken tickCount)
      = String.mk (sprintfShadowReported st (genClientToken tickCount)) := by
  have hlenA : reportSegA.length = 32 := by decide
  have hlenB : reportSegB.length = 18 := by decide
  have hlenC : reportSegC.length = 2 := by decide
  have hjson : shadowexampleSHADOW_REPORTED_JSON_LENGTH = 59 := by decide
  have htok : genClientToken tickCount < 1000000 := Nat.mod_lt _ (by omega)
  have hst : (fmtU1 st).length = 1 := natToChars_length_single st hs
  have htok6 : (fmtLU06 (genClientToken tickCount)).length = 6 := fmtLU06_length _ htok
  have hlen : (sprintfShadowReported st (genClientToken tickCount)).length = 59 := by
    simp only [sprintfShadowReported, List.length_append, hlenA, hlenB, hlenC, hst, htok6]
  refine ⟨by rw [hlen, hjson], ?_⟩
  simp only [pcUpdateDocument, snprintfChars, hjson]
  rw [List.take_of_length_le (by rw [hlen])]

/-- C8 witness: the exact-fit property at the concrete report of C5
(state `1`, tick count `21909`). -/
theorem C8_buffer_exact_witness :
    (sprintfShadowReported 1 (genClientToken 21909)).length
      = shadowexampleSHADOW_REPORTED_JSON_LENGTH ∧
    pcUpdateDocument 1 (genClientToken 21909)
      = String.mk (sprintfShadowReported 1 (genClientToken 21909)) :=
  C8_buffer_exact_for_single_digit_states 1 21909 (by decide)

/-- C9: the claim says every generated token is distinguishable from the
sentinel `0` that means "not waiting".  The generator is
`xTaskGetTickCount() % 1000000`, and at any tick count that is a multiple
of `1000000` (including boot time `0`) it produces exactly the sentinel
`0` — contradicting the struct's own documentation ("Set to 0 when not
waiting on a response") and invariant I4 of the spec. -/
theorem C9_token_generator_hits_sentinel :
    genClientToken 1000000 = 0 ∧ genClientToken 0 = 0 ∧
    genClientToken 2000000 = 0 ∧ genClientToken 21909 ≠ 0 := by
  decide
